import Mathlib

/-!
Verification of the DCF calculator (`dcf-calc.py`) against its
natural-language specification.

The program is embedded shallowly:
  - Provider field values (strings in the JSON payload) are modelled by
    `FieldVal`: a numeric string carrying the rational it parses to, or a
    non-numeric string.  Python's `float(s)` / `int(s)` become
    `pyFloat` / `pyInt` (an integer string is modelled as a rational
    with denominator 1).
  - Python floats are modelled by `ℚ` (exact arithmetic; the program's
    formulas are rational functions of the inputs).
  - A dict key that may be absent is an `Option` field; a report list is
    a `List`; `['annualReports'][0]` becomes `List.head?`.
  - An uncaught Python exception (ZeroDivisionError from a division,
    ValueError from `float(...)` outside the `try` block, KeyError from
    a lookup outside it) is the `.error` side of an `Except`; a function
    that returns `None` returns `.ok none`.
-/

/-- A provider field value: a string that either parses as a number or
does not.  `num q` is a numeric string with value `q`; `nonNum s` is a
non-numeric string such as "None" or "N/A". -/
inductive FieldVal where
  | num (q : ℚ)
  | nonNum (s : String)
deriving DecidableEq

/-- Python `float(s)` on a provider field: succeeds exactly on numeric
strings. -/
def pyFloat : FieldVal → Option ℚ
  | .num q => some q
  | .nonNum _ => none

/-- Python `int(s)` on a provider field: succeeds exactly on integer
strings (modelled: numeric with denominator 1). -/
def pyInt : FieldVal → Option ℤ
  | .num q => if q.den = 1 then some q.num else none
  | .nonNum _ => none

/-- An uncaught Python exception escaping `calculate_dcf` or `main`. -/
inductive PyErr where
  | zeroDivision
  | valueError
  | keyError
deriving DecidableEq

/-- One annual report of the CASH_FLOW statement: the
`freeCashFlow` key may be absent. -/
structure CashFlowReport where
  freeCashFlow : Option FieldVal
deriving DecidableEq

/-- The decoded CASH_FLOW response: `annualReports` list (may be empty). -/
structure CashFlowResp where
  annualReports : List CashFlowReport
deriving DecidableEq

/-- One annual report of the INCOME_STATEMENT: the `totalRevenue` key
may be absent. -/
structure IncomeReport where
  totalRevenue : Option FieldVal
deriving DecidableEq

/-- The decoded INCOME_STATEMENT response. -/
structure IncomeResp where
  annualReports : List IncomeReport
deriving DecidableEq

/-- One annual report of the BALANCE_SHEET: `totalLiabilities` and
`cashAndCashEquivalents` keys may be absent. -/
structure BalanceReport where
  totalLiabilities : Option FieldVal
  cashAndCashEquivalents : Option FieldVal
deriving DecidableEq

/-- The decoded BALANCE_SHEET response. -/
structure BalanceResp where
  annualReports : List BalanceReport
deriving DecidableEq

/-- The decoded OVERVIEW response: the `SharesOutstanding` key may be
absent. -/
structure OverviewResp where
  SharesOutstanding : Option FieldVal
deriving DecidableEq

/-- The five figures extracted in the `try` block of `calculate_dcf`
(lines 41-45).  `fcf_data` and `revenue_data` are kept as raw fields:
the source converts them with `float(...)` only later, at line 55,
outside the `try` block. -/
structure Snapshot where
  fcf_data : FieldVal
  revenue_data : FieldVal
  shares_outstanding : ℤ
  total_debt : ℚ
  cash_and_equivalents : ℚ
deriving DecidableEq

/-- The `try` block of `calculate_dcf` (lines 40-49): each lookup
(KeyError), index 0 of each report list (IndexError) and the
`int`/`float` conversions of shares, liabilities and cash (ValueError)
can fail; any failure is caught and yields `none` ("return None"). -/
def parseSnapshot (income : IncomeResp) (cashflow : CashFlowResp)
    (balance : BalanceResp) (overview : OverviewResp) : Option Snapshot := do
  let cfr ← cashflow.annualReports.head?
  let fcf_data ← cfr.freeCashFlow
  let ir ← income.annualReports.head?
  let revenue_data ← ir.totalRevenue
  let so ← overview.SharesOutstanding
  let shares_outstanding ← pyInt so
  let br ← balance.annualReports.head?
  let tl ← br.totalLiabilities
  let total_debt ← pyFloat tl
  let ce ← br.cashAndCashEquivalents
  let cash_and_equivalents ← pyFloat ce
  pure ⟨fcf_data, revenue_data, shares_outstanding, total_debt, cash_and_equivalents⟩

/-- Line 54: `revenue_growth_rate = 0.05`. -/
def revenue_growth_rate : ℚ := 5 / 100

/-- Line 57: `forecast_years = 5`. -/
def forecast_years : ℕ := 5

/-- Line 58: `discount_rate = 0.09`. -/
def discount_rate : ℚ := 9 / 100

/-- Line 59: `terminal_growth_rate = 0.025`. -/
def terminal_growth_rate : ℚ := 25 / 1000

/-- The projection loop (lines 61-67): `for i in range(1, forecast_years+1)`,
year 1 = FCF times (1+growth), later years = previous list entry times
(1+growth).  `remaining` counts the iterations still to run. -/
def projected_fcf_go (fcf_f : ℚ) : ℕ → ℕ → List ℚ → List ℚ
  | _, 0, acc => acc
  | i, remaining + 1, acc =>
    let next_fcf := if i = 1 then fcf_f * (1 + revenue_growth_rate)
      else (acc.getLast?.getD 0) * (1 + revenue_growth_rate)
    projected_fcf_go fcf_f (i + 1) remaining (acc ++ [next_fcf])

/-- The full projected-FCF list built by the loop. -/
def projected_fcf_list (fcf_f : ℚ) : List ℚ :=
  projected_fcf_go fcf_f 1 forecast_years []

/-- The discounting loop (lines 70-72): running sum of
`fcf / (1+discount_rate)^i` with `i` counting from 1
(`enumerate(projected_fcf, 1)`). -/
def pv_sum : List ℚ → ℕ → ℚ
  | [], _ => 0
  | f :: rest, i => f / (1 + discount_rate) ^ i + pv_sum rest (i + 1)

/-- `present_value_fcf` after the loop (line 70-72). -/
def present_value_fcf (pfcf : List ℚ) : ℚ := pv_sum pfcf 1

/-- Lines 75-76: terminal value from the last projected FCF.  The
divisor `discount_rate - terminal_growth_rate` is a fixed nonzero
constant (13/200), so the unguarded division cannot raise here. -/
def terminal_value_calc (pfcf : List ℚ) : ℚ :=
  (pfcf.getLast?.getD 0) * (1 + terminal_growth_rate)
    / (discount_rate - terminal_growth_rate)

/-- Line 79: present value of the terminal value. -/
def present_value_tv_calc (pfcf : List ℚ) : ℚ :=
  terminal_value_calc pfcf / (1 + discount_rate) ^ forecast_years

/-- `calculate_dcf` (lines 24-86), taking the four fetch results as
inputs (`none` = the fetcher returned `None`).

  - Any `None` among the four responses: "return None" (line 35-37).
  - A failure inside the `try` block: "return None" (line 47-49).
  - Line 55 (`fcf_margin = float(fcf_data) / float(revenue_data)`) is
    OUTSIDE the `try` block: a non-numeric string raises an uncaught
    ValueError, a zero revenue raises an uncaught ZeroDivisionError.
  - Line 84 divides by `shares_outstanding` unguarded: an uncaught
    ZeroDivisionError when it is 0. -/
def calculate_dcf (income : Option IncomeResp) (cashflow : Option CashFlowResp)
    (balance : Option BalanceResp) (overview : Option OverviewResp) :
    Except PyErr (Option ℚ) :=
  match income, cashflow, balance, overview with
  | some inc, some cf, some bs, some ov =>
    match parseSnapshot inc cf bs ov with
    | none => .ok none
    | some snap =>
      match pyFloat snap.fcf_data, pyFloat snap.revenue_data with
      | some fcf_f, some rev_f =>
        if rev_f = 0 then .error .zeroDivision
        else
          let fcf_margin := fcf_f / rev_f
          let projected_fcf := projected_fcf_list fcf_f
          let present_value := present_value_fcf projected_fcf
          let present_value_tv := present_value_tv_calc projected_fcf
          let enterprise_value := present_value + present_value_tv
          let equity_value :=
            enterprise_value + snap.cash_and_equivalents - snap.total_debt
          if snap.shares_outstanding = 0 then .error .zeroDivision
          else .ok (some (equity_value / (snap.shares_outstanding : ℚ)))
      | _, _ => .error .valueError
  | _, _, _, _ => .ok none

/-- The verdict printed by `main` (lines 115-120). -/
inductive Verdict where
  | undervalued
  | overvalued
  | fairlyValued
deriving DecidableEq

/-- The comparison at lines 115-120 of `main`: strictly greater is
undervalued, strictly less is overvalued, exact equality is fairly
valued. -/
def verdict_of (intrinsic_value current_price : ℚ) : Verdict :=
  if intrinsic_value > current_price then .undervalued
  else if intrinsic_value < current_price then .overvalued
  else .fairlyValued

/-- The object under the "Global Quote" key of the GLOBAL_QUOTE
response; the "05. price" key may be absent. -/
structure GlobalQuote where
  price05 : Option FieldVal
deriving DecidableEq

/-- The decoded GLOBAL_QUOTE response; the "Global Quote" key may be
absent. -/
structure QuoteResp where
  globalQuote : Option GlobalQuote
deriving DecidableEq

/-- What `main` does after `calculate_dcf` returns (lines 104-122). -/
inductive MainOutcome where
  | noOutput
  | noPrice
  | report (intrinsic current : ℚ) (v : Verdict)
  | crash (e : PyErr)
deriving DecidableEq

/-- Lines 104-122 of `main`, taking the `calculate_dcf` result and the
GLOBAL_QUOTE fetch result.  `if intrinsic_value:` is Python truthiness:
both `None` and the float `0.0` are falsy and skip the whole block
(no quote fetch, no printing).  The lookup of "05. price" and the
`float(...)` around it run outside any `try`, so a missing key or a
non-numeric price crashes. -/
def main_compare (dcf_result : Except PyErr (Option ℚ))
    (quote : Option QuoteResp) : MainOutcome :=
  match dcf_result with
  | .error e => .crash e
  | .ok none => .noOutput
  | .ok (some v) =>
    if v = 0 then .noOutput
    else
      match quote with
      | none => .noPrice
      | some q =>
        match q.globalQuote with
        | none => .noPrice
        | some gq =>
          match gq.price05 with
          | none => .crash .keyError
          | some pf =>
            match pyFloat pf with
            | none => .crash .valueError
            | some p => .report v p (verdict_of v p)

/-- The decoded provider payload as seen by `get_alpha_vantage_data`:
the optional "Error Message" key, plus the rest of the decoded
key/value document. -/
structure AVPayload where
  errorMessage : Option String
  contents : List (String × String)
deriving DecidableEq

/-- The outcome of the transport call (`requests.get` +
`raise_for_status` + decode): either a raised network error, or a
response with an HTTP status and decoded payload. -/
inductive TransportResult where
  | netError (msg : String)
  | response (status : ℕ) (data : AVPayload)
deriving DecidableEq

/-- `get_alpha_vantage_data` (lines 6-22) over a transport outcome.
`raise_for_status` raises `HTTPError` (a `RequestException`, so caught
at line 20) for any 4xx/5xx status.  An "Error Message" key in the
payload logs and returns `None`; otherwise the decoded payload is
returned. -/
def get_alpha_vantage_data : TransportResult → Option AVPayload
  | .netError _ => none
  | .response status data =>
    if 400 ≤ status ∧ status < 600 then none
    else if data.errorMessage.isSome then none
    else some data

/-- Modelled from the spec and claim C1 (refinement side): projected FCF
with `spec_projected_fcf f 0` the latest FCF, year 1 = FCF times 1.05,
each subsequent year = prior year times 1.05. -/
def spec_projected_fcf (fcf_f : ℚ) : ℕ → ℚ
  | 0 => fcf_f
  | n + 1 => spec_projected_fcf fcf_f n * (105 / 100)

/-- Claim C1's present value: sum over i = 1..5 of projected FCF_i
divided by 1.09^i. -/
def spec_pv (fcf_f : ℚ) : ℚ :=
  ∑ i ∈ Finset.range 5, spec_projected_fcf fcf_f (i + 1) / (109 / 100) ^ (i + 1)

/-- Claim C1's terminal value: projected FCF_5 times 1.025, divided by
0.09 - 0.025. -/
def spec_tv (fcf_f : ℚ) : ℚ :=
  spec_projected_fcf fcf_f 5 * (1025 / 1000) / (9 / 100 - 25 / 1000)

/-- Claim C1's present value of the terminal value: spec_tv / 1.09^5. -/
def spec_pvtv (fcf_f : ℚ) : ℚ := spec_tv fcf_f / (109 / 100) ^ 5

/-- Claim C1's intrinsic value per share:
(PV + PVTV + cash - liabilities) / shares. -/
def spec_intrinsic (fcf_f cash liabilities shares : ℚ) : ℚ :=
  (spec_pv fcf_f + spec_pvtv fcf_f + cash - liabilities) / shares

/-- INCOME_STATEMENT input of the spec's worked example: totalRevenue 1000. -/
def income0 : IncomeResp := ⟨[⟨some (.num 1000)⟩]⟩

/-- CASH_FLOW input of the spec's worked example: freeCashFlow 100. -/
def cashflow0 : CashFlowResp := ⟨[⟨some (.num 100)⟩]⟩

/-- BALANCE_SHEET input of the spec's worked example: totalLiabilities 30,
cashAndCashEquivalents 50. -/
def balance0 : BalanceResp := ⟨[⟨some (.num 30), some (.num 50)⟩]⟩

/-- OVERVIEW input of the spec's worked example: SharesOutstanding 100. -/
def overview0 : OverviewResp := ⟨some (.num 100)⟩

/-- An income statement whose latest totalRevenue is the numeric
string "0". -/
def income_zero_rev : IncomeResp := ⟨[⟨some (.num 0)⟩]⟩

/-- A cash flow statement whose latest freeCashFlow is the non-numeric
string "None". -/
def cashflow_nonnum : CashFlowResp := ⟨[⟨some (.nonNum ("None"))⟩]⟩

/-- An overview whose SharesOutstanding is 0. -/
def overview_zero_shares : OverviewResp := ⟨some (.num 0)⟩

/-- The `calculate_dcf` result on the spec's worked example. -/
def dcf_result0 : Except PyErr (Option ℚ) :=
  calculate_dcf (some income0) (some cashflow0) (some balance0) (some overview0)

/-- A successful provider payload with no "Error Message" key. -/
def payload0 : AVPayload := ⟨none, []⟩

deriving instance DecidableEq for Except

/-! Closed forms of the projection and discounting steps, used to settle
the numeric claims. -/

theorem projected_fcf_list_eq (f : ℚ) :
    projected_fcf_list f =
      [f * (21/20), f * (21/20) * (21/20), f * (21/20) * (21/20) * (21/20),
       f * (21/20) * (21/20) * (21/20) * (21/20),
       f * (21/20) * (21/20) * (21/20) * (21/20) * (21/20)] := by
  simp [projected_fcf_list, forecast_years, projected_fcf_go, revenue_growth_rate]
  norm_num

theorem pv_closed (f : ℚ) :
    present_value_fcf (projected_fcf_list f) = f * (68864878005 / 15386239549) := by
  rw [projected_fcf_list_eq]
  simp [present_value_fcf, pv_sum, discount_rate]
  ring

theorem tv_closed (f : ℚ) :
    terminal_value_calc (projected_fcf_list f) = f * (167448141 / 8320000) := by
  rw [projected_fcf_list_eq]
  simp [terminal_value_calc, discount_rate, terminal_growth_rate, List.getLast?]
  ring

theorem pvtv_closed (f : ℚ) :
    present_value_tv_calc (projected_fcf_list f) = f * (2616377203125 / 200021114137) := by
  rw [projected_fcf_list_eq]
  simp [present_value_tv_calc, terminal_value_calc, discount_rate, terminal_growth_rate,
    forecast_years, List.getLast?]
  ring

theorem spec_projected_fcf_eq (f : ℚ) (n : ℕ) :
    spec_projected_fcf f n = f * (21/20) ^ n := by
  induction n with
  | zero => simp [spec_projected_fcf]
  | succ n ih =>
    show spec_projected_fcf f n * (105/100) = _
    rw [ih]; ring

theorem spec_ev_eq (f : ℚ) :
    spec_pv f + spec_pvtv f = f * (32216702910 / 1835056093) := by
  simp [spec_pv, spec_pvtv, spec_tv, Finset.sum_range_succ, spec_projected_fcf_eq]
  ring

theorem dcf_result0_eq : dcf_result0 = .ok (some (162918570643 / 9175280465)) := by
  have hparse : parseSnapshot income0 cashflow0 balance0 overview0 =
      some ⟨FieldVal.num 100, FieldVal.num 1000, 100, 30, 50⟩ := by decide
  simp only [dcf_result0, calculate_dcf, hparse, pyFloat]
  norm_num [pv_closed, pvtv_closed]

/-- C1 (counterexample): a snapshot whose every field parses — latest FCF
100, revenue the numeric string "0", shares outstanding 100 (nonzero),
liabilities 30, cash 50 — on which `calculate_dcf` does not return the
claimed intrinsic value: the unguarded FCF-margin division
`float(fcf_data) / float(revenue_data)` at line 55 raises
ZeroDivisionError. -/
theorem c1_counterexample :
    parseSnapshot income_zero_rev cashflow0 balance0 overview0 =
      some ⟨FieldVal.num 100, FieldVal.num 0, 100, 30, 50⟩ ∧
    calculate_dcf (some income_zero_rev) (some cashflow0) (some balance0) (some overview0) =
      .error .zeroDivision ∧
    calculate_dcf (some income_zero_rev) (some cashflow0) (some balance0) (some overview0) ≠
      .ok (some (spec_intrinsic 100 50 30 100)) := by
  have hcalc : calculate_dcf (some income_zero_rev) (some cashflow0) (some balance0)
      (some overview0) = Except.error PyErr.zeroDivision := by decide
  refine ⟨by decide, hcalc, ?_⟩
  rw [hcalc]
  intro h
  exact Except.noConfusion h

/-- C1 (amended): for every successfully parsed snapshot whose latest FCF
and revenue moreover parse as floats, with revenue nonzero and shares
outstanding nonzero, `calculate_dcf` returns the claimed intrinsic value
per share (PV + PVTV + cash - liabilities) / shares with the projection,
discounting and terminal-value formulas exactly as stated in the claim. -/
theorem c1_intrinsic_formula (inc : IncomeResp) (cf : CashFlowResp)
    (bs : BalanceResp) (ov : OverviewResp) (snap : Snapshot) (fcf_f rev_f : ℚ)
    (hparse : parseSnapshot inc cf bs ov = some snap)
    (hfcf : pyFloat snap.fcf_data = some fcf_f)
    (hrev : pyFloat snap.revenue_data = some rev_f)
    (hrev0 : rev_f ≠ 0)
    (hsh : snap.shares_outstanding ≠ 0) :
    calculate_dcf (some inc) (some cf) (some bs) (some ov) =
      .ok (some (spec_intrinsic fcf_f snap.cash_and_equivalents snap.total_debt
        (snap.shares_outstanding : ℚ))) := by
  simp only [calculate_dcf, hparse, hfcf, hrev]
  rw [if_neg hrev0, if_neg hsh]
  simp only [Except.ok.injEq, Option.some.injEq, spec_intrinsic]
  rw [pv_closed, pvtv_closed, spec_ev_eq]
  ring

/-- C1 witness: the amended theorem applied to the worked example inputs. -/
theorem c1_intrinsic_formula_witness :
    calculate_dcf (some income0) (some cashflow0) (some balance0) (some overview0) =
      .ok (some (spec_intrinsic 100 50 30 ((100 : ℤ) : ℚ))) :=
  c1_intrinsic_formula income0 cashflow0 balance0 overview0
    ⟨FieldVal.num 100, FieldVal.num 1000, 100, 30, 50⟩ 100 1000
    (by decide) rfl rfl (by norm_num) (by norm_num)

/-- C2 (counterexample): on the worked example the computed present value
of the forecast FCFs is below 473.25, so it does not match the claimed
473.3 to 4 significant figures, and the computed intrinsic value per
share is below 18.005, so it does not match the claimed 18.01 to 4
significant figures. -/
theorem c2_counterexample :
    dcf_result0 = .ok (some (162918570643 / 9175280465)) ∧
    present_value_fcf (projected_fcf_list 100) < 4733/10 - 1/20 ∧
    (162918570643 : ℚ) / 9175280465 < 1801/100 - 1/200 := by
  refine ⟨dcf_result0_eq, ?_, by norm_num⟩
  rw [pv_closed]; norm_num

/-- C2 (amended): on the worked example the projected FCFs are
[105, 110.25, 115.7625, 121.550625, 127.62815625]; PV of FCFs is exactly
6886487800500/15386239549 ≈ 447.57; terminal value is exactly
167448141/83200 ≈ 2012.598; PV of terminal value ≈ 1308.051; enterprise
value ≈ 1755.625; equity value ≈ 1775.625; intrinsic value per share is
exactly 162918570643/9175280465 ≈ 17.7562. -/
theorem c2_concrete_values :
    projected_fcf_list 100 = [105, 441/4, 9261/80, 194481/1600, 4084101/32000] ∧
    present_value_fcf (projected_fcf_list 100) = 6886487800500 / 15386239549 ∧
    |present_value_fcf (projected_fcf_list 100) - 44757/100| ≤ 1/200 ∧
    terminal_value_calc (projected_fcf_list 100) = 167448141 / 83200 ∧
    |terminal_value_calc (projected_fcf_list 100) - 2012598/1000| ≤ 1/2000 ∧
    present_value_tv_calc (projected_fcf_list 100) = 261637720312500 / 200021114137 ∧
    |present_value_tv_calc (projected_fcf_list 100) - 1308051/1000| ≤ 1/2000 ∧
    present_value_fcf (projected_fcf_list 100) + present_value_tv_calc (projected_fcf_list 100)
      = 3221670291000 / 1835056093 ∧
    |present_value_fcf (projected_fcf_list 100) + present_value_tv_calc (projected_fcf_list 100)
      - 1755625/1000| ≤ 1/2000 ∧
    present_value_fcf (projected_fcf_list 100) + present_value_tv_calc (projected_fcf_list 100)
      + 50 - 30 = 3258371412860 / 1835056093 ∧
    |present_value_fcf (projected_fcf_list 100) + present_value_tv_calc (projected_fcf_list 100)
      + 50 - 30 - 1775625/1000| ≤ 1/2000 ∧
    dcf_result0 = .ok (some (162918570643 / 9175280465)) ∧
    |(162918570643 : ℚ) / 9175280465 - 177562/10000| ≤ 1/20000 := by
  have hpv := pv_closed 100
  have htv := tv_closed 100
  have hpvtv := pvtv_closed 100
  refine ⟨?_, ?_, ?_, ?_, ?_, ?_, ?_, ?_, ?_, ?_, ?_, dcf_result0_eq, ?_⟩
  · rw [projected_fcf_list_eq]; norm_num
  · rw [hpv]; norm_num
  · rw [hpv, abs_sub_le_iff]; norm_num
  · rw [htv]; norm_num
  · rw [htv, abs_sub_le_iff]; norm_num
  · rw [hpvtv]; norm_num
  · rw [hpvtv, abs_sub_le_iff]; norm_num
  · rw [hpv, hpvtv]; norm_num
  · rw [hpv, hpvtv, abs_sub_le_iff]; norm_num
  · rw [hpv, hpvtv]; norm_num
  · rw [hpv, hpvtv, abs_sub_le_iff]; norm_num
  · rw [abs_sub_le_iff]; norm_num

/-- C3: the verdict comparison of `main` is the exact trichotomy on the
intrinsic value and the current price: undervalued iff strictly greater,
overvalued iff strictly less, fairly valued iff exactly equal. -/
theorem c3_verdict_trichotomy (v p : ℚ) :
    (verdict_of v p = .undervalued ↔ v > p) ∧
    (verdict_of v p = .overvalued ↔ v < p) ∧
    (verdict_of v p = .fairlyValued ↔ v = p) := by
  unfold verdict_of
  rcases lt_trichotomy v p with h | h | h
  · rw [if_neg (lt_asymm h), if_pos h]
    refine ⟨⟨fun hx => absurd hx (by simp), fun hx => absurd h (lt_asymm hx)⟩,
      ⟨fun _ => h, fun _ => rfl⟩,
      ⟨fun hx => absurd hx (by simp), fun hx => absurd h (by rw [hx]; exact lt_irrefl p)⟩⟩
  · subst h
    rw [if_neg (lt_irrefl v), if_neg (lt_irrefl v)]
    refine ⟨⟨fun hx => absurd hx (by simp), fun hx => absurd hx (lt_irrefl v)⟩,
      ⟨fun hx => absurd hx (by simp), fun hx => absurd hx (lt_irrefl v)⟩,
      ⟨fun _ => rfl, fun _ => rfl⟩⟩
  · rw [if_pos h]
    refine ⟨⟨fun _ => h, fun _ => rfl⟩,
      ⟨fun hx => absurd hx (by simp), fun hx => absurd h (lt_asymm hx)⟩,
      ⟨fun hx => absurd hx (by simp), fun hx => absurd h (by rw [hx]; exact lt_irrefl p)⟩⟩

/-- C4 (code evaluated at the failing input): with every field present
and parsable except that freeCashFlow is the non-numeric string "None",
the `try` block succeeds (the parsed snapshot is returned), yet
`calculate_dcf` does not return no-result: `float(fcf_data)` at line 55
runs outside the `try`/`except` and the ValueError escapes uncaught,
crashing the run — contradicting the claim that any non-numeric field
logs a diagnostic and yields no result without crashing. -/
theorem c4_nonnumeric_fcf_crashes :
    parseSnapshot income0 cashflow_nonnum balance0 overview0 =
      some ⟨FieldVal.nonNum ("None"), FieldVal.num 1000, 100, 30, 50⟩ ∧
    calculate_dcf (some income0) (some cashflow_nonnum) (some balance0) (some overview0) =
      .error .valueError ∧
    calculate_dcf (some income0) (some cashflow_nonnum) (some balance0) (some overview0) ≠
      .ok none := by
  have hcalc : calculate_dcf (some income0) (some cashflow_nonnum) (some balance0)
      (some overview0) = Except.error PyErr.valueError := by decide
  refine ⟨by decide, hcalc, ?_⟩
  rw [hcalc]
  intro h
  exact Except.noConfusion h

/-- C5: with a fully parsed snapshot (revenue nonzero so the margin
division passes) whose shares outstanding is 0, `calculate_dcf` fails
with an uncaught ZeroDivisionError rather than a caught no-result; and
the terminal-value divisor `discount_rate - terminal_growth_rate` is the
fixed nonzero constant 13/200, so that unguarded division never fails. -/
theorem c5_unguarded_divisions (inc : IncomeResp) (cf : CashFlowResp)
    (bs : BalanceResp) (ov : OverviewResp) (snap : Snapshot) (fcf_f rev_f : ℚ)
    (hparse : parseSnapshot inc cf bs ov = some snap)
    (hfcf : pyFloat snap.fcf_data = some fcf_f)
    (hrev : pyFloat snap.revenue_data = some rev_f)
    (hrev0 : rev_f ≠ 0)
    (hsh : snap.shares_outstanding = 0) :
    calculate_dcf (some inc) (some cf) (some bs) (some ov) = .error .zeroDivision ∧
    discount_rate - terminal_growth_rate = 13/200 ∧
    (13 : ℚ)/200 ≠ 0 := by
  refine ⟨?_, by norm_num [discount_rate, terminal_growth_rate], by norm_num⟩
  simp only [calculate_dcf, hparse, hfcf, hrev]
  rw [if_neg hrev0, if_pos hsh]

/-- C5 witness: shares outstanding 0 on otherwise valid inputs. -/
theorem c5_unguarded_divisions_witness :
    calculate_dcf (some income0) (some cashflow0) (some balance0) (some overview_zero_shares)
      = .error .zeroDivision ∧
    discount_rate - terminal_growth_rate = 13/200 ∧
    (13 : ℚ)/200 ≠ 0 :=
  c5_unguarded_divisions income0 cashflow0 balance0 overview_zero_shares
    ⟨FieldVal.num 100, FieldVal.num 1000, 0, 30, 50⟩ 100 1000
    (by decide) rfl rfl (by norm_num) rfl

/-- C6: if any of the four statement fetches returned null, the whole
valuation is aborted: `calculate_dcf` returns no result, with no
arithmetic performed (the result is the same whatever the other three
responses hold). -/
theorem c6_missing_fetch_aborts (income : Option IncomeResp) (cashflow : Option CashFlowResp)
    (balance : Option BalanceResp) (overview : Option OverviewResp)
    (h : income = none ∨ cashflow = none ∨ balance = none ∨ overview = none) :
    calculate_dcf income cashflow balance overview = .ok none := by
  rcases income with _ | inc
  · cases cashflow <;> cases balance <;> cases overview <;> rfl
  rcases cashflow with _ | cf
  · cases balance <;> cases overview <;> rfl
  rcases balance with _ | bs
  · cases overview <;> rfl
  rcases overview with _ | ov
  · rfl
  rcases h with h | h | h | h <;> exact Option.noConfusion h

/-- C6 witness: a null income statement aborts the valuation. -/
theorem c6_missing_fetch_aborts_witness :
    calculate_dcf none (some cashflow0) (some balance0) (some overview0) = .ok none :=
  c6_missing_fetch_aborts none (some cashflow0) (some balance0) (some overview0) (Or.inl rfl)

/-- C7: the fetcher returns null exactly when the transport raised a
network error, the HTTP status is a 4xx/5xx failure, or the payload
carries an "Error Message" field; in every other case it returns the
decoded payload itself. -/
theorem c7_fetcher_null_iff :
    (∀ t : TransportResult, get_alpha_vantage_data t = none ↔
      ((∃ msg, t = .netError msg) ∨
       (∃ status data, t = .response status data ∧ 400 ≤ status ∧ status < 600) ∨
       (∃ status data, t = .response status data ∧ data.errorMessage.isSome))) ∧
    (∀ (status : ℕ) (data : AVPayload),
      ¬(400 ≤ status ∧ status < 600) → data.errorMessage = none →
      get_alpha_vantage_data (.response status data) = some data) := by
  constructor
  · intro t
    cases t with
    | netError m => exact iff_of_true rfl (Or.inl ⟨m, rfl⟩)
    | response s d =>
      simp only [get_alpha_vantage_data]
      split_ifs with h1 h2
      · exact iff_of_true rfl (Or.inr (Or.inl ⟨s, d, rfl, h1⟩))
      · exact iff_of_true rfl (Or.inr (Or.inr ⟨s, d, rfl, h2⟩))
      · constructor
        · intro h; exact h.elim
        · rintro (⟨m, hm⟩ | ⟨st, da, heq, hc⟩ | ⟨st, da, heq, hc⟩)
          · exact hm.elim
          · injection heq with hs hd
            subst hs; subst hd
            exact absurd hc h1
          · injection heq with hs hd
            subst hs; subst hd
            exact absurd hc h2
  · intro s d h1 h2
    simp [get_alpha_vantage_data, h1, h2]

/-- C7 witness: a 200-status response with no error field is returned
as-is. -/
theorem c7_fetcher_null_iff_witness :
    get_alpha_vantage_data (.response 200 payload0) = some payload0 :=
  c7_fetcher_null_iff.2 200 payload0 (by omega) rfl

/-- C8: the FCF margin is dead code: two runs whose inputs agree except
for the latest totalRevenue field give the same `calculate_dcf` result,
as long as both revenue values parse as nonzero floats (revenue affects
only whether the margin division itself succeeds). -/
theorem c8_revenue_unused (cashflow : Option CashFlowResp) (balance : Option BalanceResp)
    (overview : Option OverviewResp) (rf1 rf2 : FieldVal) (tail : List IncomeReport)
    (q1 q2 : ℚ) (h1 : pyFloat rf1 = some q1) (h2 : pyFloat rf2 = some q2)
    (hq1 : q1 ≠ 0) (hq2 : q2 ≠ 0) :
    calculate_dcf (some ⟨⟨some rf1⟩ :: tail⟩) cashflow balance overview =
      calculate_dcf (some ⟨⟨some rf2⟩ :: tail⟩) cashflow balance overview := by
  rcases cashflow with _ | cf
  · cases balance <;> cases overview <;> rfl
  rcases balance with _ | bs
  · cases overview <;> rfl
  rcases overview with _ | ov
  · rfl
  simp only [calculate_dcf, parseSnapshot, Option.bind_eq_bind]
  cases cf.annualReports.head? with
  | none => rfl
  | some cfr =>
  simp only [Option.some_bind]
  cases cfr.freeCashFlow with
  | none => rfl
  | some fcfF =>
  simp only [Option.some_bind, List.head?_cons]
  cases ov.SharesOutstanding with
  | none => rfl
  | some so =>
  simp only [Option.some_bind]
  cases pyInt so with
  | none => rfl
  | some sh =>
  simp only [Option.some_bind]
  cases bs.annualReports.head? with
  | none => rfl
  | some br =>
  simp only [Option.some_bind]
  cases br.totalLiabilities with
  | none => rfl
  | some tl =>
  simp only [Option.some_bind]
  cases pyFloat tl with
  | none => rfl
  | some d =>
  simp only [Option.some_bind]
  cases br.cashAndCashEquivalents with
  | none => rfl
  | some ce =>
  simp only [Option.some_bind]
  cases pyFloat ce with
  | none => rfl
  | some c =>
  simp only [Option.some_bind]
  cases pyFloat fcfF with
  | none => rfl
  | some f => simp [h1, h2, hq1, hq2]

/-- C8 witness: revenue 1000 against revenue 2000, all else equal. -/
theorem c8_revenue_unused_witness :
    calculate_dcf (some ⟨⟨some (FieldVal.num 1000)⟩ :: []⟩) (some cashflow0)
      (some balance0) (some overview0) =
    calculate_dcf (some ⟨⟨some (FieldVal.num 2000)⟩ :: []⟩) (some cashflow0)
      (some balance0) (some overview0) :=
  c8_revenue_unused (some cashflow0) (some balance0) (some overview0)
    (FieldVal.num 1000) (FieldVal.num 2000) [] 1000 2000 rfl rfl
    (by norm_num) (by norm_num)

/-- C9: `calculate_dcf` is deterministic: equal inputs give equal
outputs (the embedding is a pure function of the four parsed
responses). -/
theorem c9_deterministic (ia ib : Option IncomeResp) (ca cb : Option CashFlowResp)
    (ba bb : Option BalanceResp) (oa ob : Option OverviewResp)
    (hi : ia = ib) (hc : ca = cb) (hb : ba = bb) (ho : oa = ob) :
    calculate_dcf ia ca ba oa = calculate_dcf ib cb bb ob := by
  rw [hi, hc, hb, ho]

/-- C9 witness: two invocations on the worked example agree. -/
theorem c9_deterministic_witness :
    calculate_dcf (some income0) (some cashflow0) (some balance0) (some overview0) =
      calculate_dcf (some income0) (some cashflow0) (some balance0) (some overview0) :=
  c9_deterministic _ _ _ _ _ _ _ _ rfl rfl rfl rfl

/-- C10: a successful valuation of exactly 0.0 is treated like a failed
one — the block guarded by `if intrinsic_value:` is skipped whatever the
quote would have been, exactly as for a `None` result — while any
nonzero intrinsic value (negative included) proceeds: it never yields
the silent no-output outcome, and with a successful quote carrying a
numeric price the verdict is printed. -/
theorem c10_zero_intrinsic_falsy (quote : Option QuoteResp) (v p : ℚ) (pf : FieldVal)
    (hv : v ≠ 0) (hp : pyFloat pf = some p) :
    main_compare (.ok (some 0)) quote = .noOutput ∧
    main_compare (.ok (some 0)) quote = main_compare (.ok none) quote ∧
    main_compare (.ok (some v)) quote ≠ .noOutput ∧
    main_compare (.ok (some v)) (some ⟨some ⟨some pf⟩⟩) = .report v p (verdict_of v p) := by
  refine ⟨by simp [main_compare], by simp [main_compare], ?_, ?_⟩
  · rcases quote with _ | ⟨gq⟩
    · simp only [main_compare]
      rw [if_neg hv]
      exact fun h => MainOutcome.noConfusion h
    rcases gq with _ | ⟨p5⟩
    · simp only [main_compare]
      rw [if_neg hv]
      exact fun h => MainOutcome.noConfusion h
    rcases p5 with _ | pf2
    · simp only [main_compare]
      rw [if_neg hv]
      exact fun h => MainOutcome.noConfusion h
    cases hpf2 : pyFloat pf2 with
    | none =>
      simp only [main_compare, hpf2]
      rw [if_neg hv]
      exact fun h => MainOutcome.noConfusion h
    | some p2 =>
      simp only [main_compare, hpf2]
      rw [if_neg hv]
      exact fun h => MainOutcome.noConfusion h
  · simp only [main_compare, hp]
    rw [if_neg hv]

/-- C10 witness: intrinsic 1, quote price 5. -/
theorem c10_zero_intrinsic_falsy_witness :
    main_compare (.ok (some 0)) none = .noOutput ∧
    main_compare (.ok (some 0)) none = main_compare (.ok none) none ∧
    main_compare (.ok (some 1)) none ≠ .noOutput ∧
    main_compare (.ok (some 1)) (some ⟨some ⟨some (FieldVal.num 5)⟩⟩) =
      .report 1 5 (verdict_of 1 5) :=
  c10_zero_intrinsic_falsy none 1 5 (FieldVal.num 5) (by norm_num) rfl

